import Mathlib

/-!
Verification of the DremelDiscovery plugin (DremelDiscoveryPlugin.py,
DremelOutputDevice.py): a shallow embedding of the discovery scanner and
the printer-connection state machine, with theorems about the claims of
the specification.

Network I/O is modelled by passing the outcome of each HTTP request as an
explicit input (an exception, or a status code with a body); JSON bodies
are modelled by an inductive `Json` type, and the Python attribute errors
raised by calling `.get`/`.lower()` on a non-dict/non-string value are
modelled with `Except Unit`.
-/

namespace Dremel

/-- JSON values, as produced by Python's `json.loads`.  Numbers are
modelled as integers: no claim involves fractional arithmetic. -/
inductive Json where
  | null
  | bool (b : Bool)
  | num (n : Int)
  | str (s : String)
  | arr (elems : List Json)
  | obj (fields : List (String × Json))

mutual

/-- Python equality (`==` / `!=`) restricted to JSON values, used by the
polling loop's `progress != self._progress` test. -/
def Json.beq : Json → Json → Bool
  | .null, .null => true
  | .bool a, .bool b => a == b
  | .num a, .num b => a == b
  | .str a, .str b => a == b
  | .arr xs, .arr ys => Json.beqList xs ys
  | .obj xs, .obj ys => Json.beqFields xs ys
  | _, _ => false

/-- Elementwise `Json.beq` on lists (Python `==` on JSON arrays). -/
def Json.beqList : List Json → List Json → Bool
  | [], [] => true
  | x :: xs, y :: ys => Json.beq x y && Json.beqList xs ys
  | _, _ => false

/-- Fieldwise `Json.beq` on objects (keys in order, as in a dict built by
`json.loads`). -/
def Json.beqFields : List (String × Json) → List (String × Json) → Bool
  | [], [] => true
  | (k, v) :: xs, (l, w) :: ys => k == l && Json.beq v w && Json.beqFields xs ys
  | _, _ => false

end

/-- Python truthiness of a JSON value, as tested by
`if json_response:` in `_checkPrinter`. -/
def Json.truthy : Json → Bool
  | .null => false
  | .bool b => b
  | .num n => n != 0
  | .str s => s != ""
  | .arr xs => !xs.isEmpty
  | .obj fs => !fs.isEmpty

/-- Python `value.get(key, default)`: succeeds on a dict (returning the
stored value or the default), raises `AttributeError` (modelled as
`Except.error`) on any non-dict value. -/
def Json.pyGet (j : Json) (key : String) (dflt : Json) : Except Unit Json :=
  match j with
  | .obj fields => .ok ((fields.lookup key).getD dflt)
  | _ => .error ()

/-- Python `str.lower()`, restricted to ASCII letters (the status
strings the device protocol uses are ASCII; Python and this definition
agree on every ASCII string). -/
def pyLower (s : String) : String :=
  String.mk (s.data.map fun c =>
    if 65 ≤ c.toNat ∧ c.toNat ≤ 90 then Char.ofNat (c.toNat + 32) else c)

/-- Result of `json.loads` on a response body: either it raises
(`malformed`) or yields a JSON value. -/
inductive JsonParse where
  | malformed
  | val (j : Json)

end Dremel

namespace Dremel

/-! ## DremelOutputDevice: printer-connection state machine -/

/-- The mutable fields of a `DremelOutputDevice`:
`_is_connected`, `_printing`, `_progress` (initially `False, False, 0`). -/
structure DeviceState where
  is_connected : Bool
  printing : Bool
  progress : Json

/-- The initial connection state set in `DremelOutputDevice.__init__`. -/
def initialDeviceState : DeviceState :=
  { is_connected := false, printing := false, progress := Json.num 0 }

/-- Observable host-UI effects of the connection: the `stateChanged` and
`progressChanged` signals, and `Message(...).show()` with its text. -/
inductive Event where
  | stateChanged
  | progressChanged
  | message (text : String)
deriving DecidableEq

def isStateChanged : Event → Bool
  | .stateChanged => true
  | _ => false

def isProgressChanged : Event → Bool
  | .progressChanged => true
  | _ => false

/-- Number of `stateChanged` emissions in an event trace. -/
def countState (evs : List Event) : Nat := (evs.filter isStateChanged).length

/-- Number of `progressChanged` emissions in an event trace. -/
def countProgress (evs : List Event) : Nat :=
  (evs.filter isProgressChanged).length

/-- Outcome of one `urlopen` status poll in `_statusThreadFunction`:
an exception (timeout, refused, ...), or a returned response with a
status code and a body. -/
inductive PollResponse where
  | exn
  | status (code : Nat) (body : JsonParse)

/-- Lines 186-189 of `_statusThreadFunction`: on a returned response with
status 200, flip to connected and emit `stateChanged` if previously
disconnected. -/
def connectPhase (s : DeviceState) : DeviceState × List Event :=
  if s.is_connected then (s, [])
  else ({ s with is_connected := true }, [Event.stateChanged])

/-- The shared disconnect logic of `_statusThreadFunction`: both the
non-200 branch (lines 205-209) and the `except` handler (lines 211-216)
flip to disconnected and emit `stateChanged` if previously connected. -/
def disconnectPhase (s : DeviceState) : DeviceState × List Event :=
  if s.is_connected then ({ s with is_connected := false }, [Event.stateChanged])
  else (s, [])

/-- `status_data.get("build", {}).get("status", "").lower()`
(line 195): raises if the payload is a non-dict, if `build` is present
and a non-dict, or if `status` is present and a non-string. -/
def extractStatusLower (j : Json) : Except Unit String := do
  let build ← j.pyGet "build" (Json.obj [])
  let st ← build.pyGet "status" (Json.str "")
  match st with
  | .str s => .ok (pyLower s)
  | _ => .error ()

/-- `status_data.get("build", {}).get("progress", 0)` (line 200);
only evaluated after `extractStatusLower` succeeded, so the dict shapes
are known to be fine and the catch-all branches are unreachable. -/
def extractProgress (j : Json) : Json :=
  match j with
  | .obj fields =>
    match fields.lookup "build" with
    | some (.obj bfields) => (bfields.lookup "progress").getD (Json.num 0)
    | _ => Json.num 0
  | _ => Json.num 0

/-- Lines 192-203 of `_statusThreadFunction`: parse the printing status,
store `_printing`, and if printing read the progress value and, when it
differs from `_progress`, store it and emit `progressChanged`.  A shape
error while reading the status falls into the `except` handler
(`disconnectPhase`). -/
def handleStatusJson (s : DeviceState) (j : Json) : DeviceState × List Event :=
  match extractStatusLower j with
  | .error _ => disconnectPhase s
  | .ok st =>
    let printing := st == "building" || st == "printing"
    let s2 := { s with printing := printing }
    if printing then
      let progress := extractProgress j
      if Json.beq progress s2.progress then (s2, [])
      else ({ s2 with progress := progress }, [Event.progressChanged])
    else (s2, [])

/-- One iteration of the polling loop in `_statusThreadFunction`
(lines 173-219), as a function of the HTTP outcome. -/
def pollStep (s : DeviceState) (r : PollResponse) : DeviceState × List Event :=
  match r with
  | .exn => disconnectPhase s
  | .status code body =>
    if code == 200 then
      let p1 := connectPhase s
      match body with
      | .malformed =>
        let p2 := disconnectPhase p1.1
        (p2.1, p1.2 ++ p2.2)
      | .val j =>
        let p2 := handleStatusJson p1.1 j
        (p2.1, p1.2 ++ p2.2)
    else disconnectPhase s

/-- A sequence of polling iterations, accumulating emitted events. -/
def pollTrace (s : DeviceState) : List PollResponse → DeviceState × List Event
  | [] => (s, [])
  | r :: rest =>
    let p1 := pollStep s r
    let p2 := pollTrace p1.1 rest
    (p2.1, p1.2 ++ p2.2)

/-- A failing poll iteration in the sense of the spec: an exception or a
non-200 response. -/
def isFailing : PollResponse → Bool
  | .exn => true
  | .status code _ => code != 200

/-! ## DremelOutputDevice: write request and upload -/

/-- The user-visible message texts of `DremelOutputDevice`. -/
def busyText : String :=
  "Dremel printer is busy. Please wait until the current print job is finished."

def uploadingText : String := "Uploading to Dremel printer"

def uploadSuccessText : String :=
  "Print job uploaded to Dremel printer successfully."

def startFailText : String := "Failed to start print job on Dremel printer."

def uploadFailText : String := "Failed to upload print job to Dremel printer."

def uploadErrorText (e : String) : String :=
  "Error uploading to Dremel printer: " ++ e

/-- How far the `try` block of `_uploadGCode` gets before receiving an
upload response: reading the temp file raised (before the "Uploading"
message is shown), the upload `urlopen` raised (after it), or the upload
request returned with a status code. -/
inductive UploadAttempt where
  | readExn (e : String)
  | netExn (e : String)
  | ok (code : Nat)

/-- Outcome of the start-print `urlopen` (only reached when the upload
returned 200). -/
inductive NetResult where
  | exn (e : String)
  | code (c : Nat)

/-- `_uploadGCode` (lines 84-161): the state change, the shown messages
and signals in order, and the number of HTTP requests performed.
Any exception lands in the generic handler showing
`uploadErrorText`; on upload 200 the success message is shown, the start
command issued, and on start 200 `_printing := True`, `_progress := 0`,
`progressChanged.emit()`. -/
def uploadGCode (s : DeviceState) (attempt : UploadAttempt)
    (start : NetResult) : DeviceState × List Event × Nat :=
  match attempt with
  | .readExn e => (s, [Event.message (uploadErrorText e)], 0)
  | .netExn e =>
    (s, [Event.message uploadingText, Event.message (uploadErrorText e)], 1)
  | .ok code =>
    if code == 200 then
      match start with
      | .exn e =>
        (s, [Event.message uploadingText, Event.message uploadSuccessText,
             Event.message (uploadErrorText e)], 2)
      | .code c2 =>
        if c2 == 200 then
          ({ s with printing := true, progress := Json.num 0 },
           [Event.message uploadingText, Event.message uploadSuccessText,
            Event.progressChanged], 2)
        else
          (s, [Event.message uploadingText, Event.message uploadSuccessText,
               Event.message startFailText], 2)
    else
      (s, [Event.message uploadingText, Event.message uploadFailText], 1)

/-- `requestWrite` (lines 55-82): if `_printing`, show the busy message
and return without any HTTP request; if the local-file exporter is
missing, log and return; otherwise export and run `_uploadGCode`.
Returns the new state, the shown messages/signals, and the number of
HTTP requests performed. -/
def requestWrite (s : DeviceState) (exporterAvailable : Bool)
    (attempt : UploadAttempt) (start : NetResult) :
    DeviceState × List Event × Nat :=
  if s.printing then (s, [Event.message busyText], 0)
  else if !exporterAvailable then (s, [], 0)
  else uploadGCode s attempt start

/-! ## DremelDiscoveryPlugin: discovery scanner -/

/-- The arguments `_onDeviceFound` passes to the `DremelOutputDevice`
constructor for a discovered printer. -/
structure DeviceRecord where
  id : String
  name : Json
  url : String
  properties : Json

/-- Outcome of the discovery probe `urlopen` in `_checkPrinter`:
`urllib.error.URLError` (includes connection refused and HTTP error
statuses), `socket.timeout`, any other exception, or a returned body. -/
inductive ProbeOutcome where
  | urlError
  | timeout
  | otherError
  | ok (body : JsonParse)

/-- `_checkPrinter` (lines 73-113): the device record handed to
`_onDeviceFound`, or `none` when no printer is reported (any exception,
malformed JSON, falsy JSON, or an `AttributeError` from calling `.get`
on a non-dict while reading `machine.name`). -/
def checkPrinter (ip : String) (r : ProbeOutcome) : Option DeviceRecord :=
  match r with
  | .urlError => none
  | .timeout => none
  | .otherError => none
  | .ok .malformed => none
  | .ok (.val j) =>
    if j.truthy then
      match j.pyGet "machine" (Json.obj []) with
      | .error _ => none
      | .ok machine =>
        match machine.pyGet "name" (Json.str ("Dremel " ++ ip)) with
        | .error _ => none
        | .ok printer_name =>
          some { id := "dremel:" ++ ip, name := printer_name,
                 url := "http://" ++ ip ++ "/", properties := j }
    else none

/-- The display name the spec prescribes: `machine.name` when that key is
present, otherwise `"Dremel " + ip`.  Stated from the spec's words, to be
compared with the name `checkPrinter` computes. -/
def specDisplayName (ip : String) (j : Json) : Json :=
  match j with
  | .obj fields =>
    match fields.lookup "machine" with
    | some (.obj mfields) =>
      (mfields.lookup "name").getD (Json.str ("Dremel " ++ ip))
    | _ => Json.str ("Dremel " ++ ip)
  | _ => Json.str ("Dremel " ++ ip)

/-- The exact condition under which `checkPrinter` reports a printer: a
truthy JSON object whose `machine` member, when present, is itself an
object (otherwise the `.get` chain raises and the probe is a no-match). -/
def probeMatches (j : Json) : Bool :=
  j.truthy &&
    (match j with
     | .obj fields =>
       match fields.lookup "machine" with
       | some (.obj _) => true
       | some _ => false
       | none => true
     | _ => false)

/-- The mutable fields of `DremelDiscoveryPlugin`:
`_discovered_devices` (dict keyed by `"dremel:"+ip`),
`_discovery_thread` (whether a thread object is stored; the code only
ever tests it against `None`), and `_is_scanning`. -/
structure ScannerState where
  discovered_devices : List (String × DeviceRecord)
  discovery_thread : Bool
  is_scanning : Bool

/-- The initial scanner state set in `DremelDiscoveryPlugin.__init__`. -/
def initialScannerState : ScannerState :=
  { discovered_devices := [], discovery_thread := false, is_scanning := false }

/-- Observable effects of the scanner: registering/unregistering a device
with the host's output-device manager, and the `discoveredDevicesChanged`
signal. -/
inductive ScanEvent where
  | addedToRegistry (id : String)
  | removedFromRegistry (id : String)
  | devicesChanged
deriving DecidableEq

/-- `startDiscovery` (lines 51-63): return if already scanning; set
`_is_scanning`; start the worker thread only when `_discovery_thread is
None`.  The returned `Bool` records whether a worker thread was spawned
(the only way discovery probes get issued). -/
def startDiscovery (s : ScannerState) : ScannerState × Bool :=
  if s.is_scanning then (s, false)
  else
    let s1 := { s with is_scanning := true }
    if !s1.discovery_thread then
      ({ s1 with discovery_thread := true }, true)
    else (s1, false)

/-- `stopDiscovery` (lines 65-71): return if not scanning; clear
`_is_scanning` and set `_discovery_thread = None`. -/
def stopDiscovery (s : ScannerState) : ScannerState :=
  if !s.is_scanning then s
  else { s with is_scanning := false, discovery_thread := false }

/-- The tail of `_discoverDremelPrinters` (line 131): when the scan loop
finishes, it clears `_is_scanning` but leaves `_discovery_thread` set. -/
def scanComplete (s : ScannerState) : ScannerState :=
  { s with is_scanning := false }

/-- `_onDeviceFound` (lines 133-150): if the key `"dremel:"+ip` is not
yet in `_discovered_devices`, construct the device, store it, register it
with the output-device manager and emit `discoveredDevicesChanged`;
otherwise do nothing. -/
def onDeviceFound (s : ScannerState) (ip : String) (name : Json)
    (url : String) (properties : Json) : ScannerState × List ScanEvent :=
  let key := "dremel:" ++ ip
  if (s.discovered_devices.lookup key).isSome then (s, [])
  else
    let device : DeviceRecord :=
      { id := key, name := name, url := url, properties := properties }
    ({ s with discovered_devices := (key, device) :: s.discovered_devices },
     [ScanEvent.addedToRegistry key, ScanEvent.devicesChanged])

/-- `_removeDevice` (lines 152-157): pop the key if present, unregister
the device and emit `discoveredDevicesChanged`. -/
def removeDevice (s : ScannerState) (device_id : String) :
    ScannerState × List ScanEvent :=
  if (s.discovered_devices.lookup device_id).isSome then
    ({ s with discovered_devices :=
        s.discovered_devices.filter (fun p => p.1 != device_id) },
     [ScanEvent.removedFromRegistry device_id, ScanEvent.devicesChanged])
  else (s, [])

/-- The states the scanner can reach from construction through its
operations. -/
inductive Reachable : ScannerState → Prop where
  | init : Reachable initialScannerState
  | start {s} : Reachable s → Reachable (startDiscovery s).1
  | stop {s} : Reachable s → Reachable (stopDiscovery s)
  | complete {s} : Reachable s → Reachable (scanComplete s)
  | found {s} (ip : String) (name : Json) (url : String) (props : Json) :
      Reachable s → Reachable (onDeviceFound s ip name url props).1
  | removed {s} (device_id : String) :
      Reachable s → Reachable (removeDevice s device_id).1

end Dremel

namespace Dremel

/-! ## Helper lemmas -/

mutual

theorem Json.beq_refl : ∀ (j : Json), Json.beq j j = true
  | .null => rfl
  | .bool b => by simp [Json.beq]
  | .num n => by simp [Json.beq]
  | .str s => by simp [Json.beq]
  | .arr xs => by simp [Json.beq, Json.beqList_refl xs]
  | .obj xs => by simp [Json.beq, Json.beqFields_refl xs]

theorem Json.beqList_refl : ∀ (xs : List Json), Json.beqList xs xs = true
  | [] => rfl
  | x :: xs => by simp [Json.beqList, Json.beq_refl x, Json.beqList_refl xs]

theorem Json.beqFields_refl : ∀ (xs : List (String × Json)),
    Json.beqFields xs xs = true
  | [] => rfl
  | (k, v) :: xs => by
      simp [Json.beqFields, Json.beq_refl v, Json.beqFields_refl xs]

end

theorem countProgress_append (a b : List Event) :
    countProgress (a ++ b) = countProgress a + countProgress b := by
  simp [countProgress, List.filter_append]

theorem countState_append (a b : List Event) :
    countState (a ++ b) = countState a + countState b := by
  simp [countState, List.filter_append]

theorem connectPhase_printing (s : DeviceState) :
    (connectPhase s).1.printing = s.printing := by
  unfold connectPhase; split <;> rfl

theorem connectPhase_progress (s : DeviceState) :
    (connectPhase s).1.progress = s.progress := by
  unfold connectPhase; split <;> rfl

theorem connectPhase_countProgress (s : DeviceState) :
    countProgress (connectPhase s).2 = 0 := by
  unfold connectPhase; split <;> rfl

theorem disconnectPhase_printing (s : DeviceState) :
    (disconnectPhase s).1.printing = s.printing := by
  unfold disconnectPhase; split <;> rfl

theorem disconnectPhase_progress (s : DeviceState) :
    (disconnectPhase s).1.progress = s.progress := by
  unfold disconnectPhase; split <;> rfl

theorem disconnectPhase_countProgress (s : DeviceState) :
    countProgress (disconnectPhase s).2 = 0 := by
  unfold disconnectPhase; split <;> rfl

theorem handleStatusJson_printing_ok (s : DeviceState) (j : Json)
    (st : String) (hs : extractStatusLower j = .ok st) :
    (handleStatusJson s j).1.printing =
      (st == "building" || st == "printing") := by
  simp only [handleStatusJson, hs]
  split
  · split <;> rfl
  · rfl

theorem handleStatusJson_err (s : DeviceState) (j : Json)
    (hs : extractStatusLower j = .error ()) :
    handleStatusJson s j = disconnectPhase s := by
  simp [handleStatusJson, hs]

theorem pollStep_200_val (s : DeviceState) (j : Json) :
    pollStep s (.status 200 (.val j)) =
      ((handleStatusJson (connectPhase s).1 j).1,
       (connectPhase s).2 ++ (handleStatusJson (connectPhase s).1 j).2) :=
  rfl

theorem handleStatusJson_progress_count (s : DeviceState) (j : Json) :
    countProgress (handleStatusJson s j).2 =
      if Json.beq (handleStatusJson s j).1.progress s.progress then 0
      else 1 := by
  unfold handleStatusJson
  cases hs : extractStatusLower j with
  | error e =>
    simp [disconnectPhase_countProgress, disconnectPhase_progress,
      Json.beq_refl]
  | ok st =>
    simp only []
    split
    · split
      · simp [countProgress, Json.beq_refl]
      · simp only [countProgress, isProgressChanged, List.filter,
          List.length]
    · simp [countProgress, Json.beq_refl]

theorem lookup_none_not_mem {β : Type} (l : List (String × β)) (k : String)
    (h : l.lookup k = none) : k ∉ l.map Prod.fst := by
  intro hmem
  rw [List.mem_map] at hmem
  obtain ⟨⟨a, b⟩, hab, hfst⟩ := hmem
  simp only [List.lookup_eq_none_iff] at h
  have hne := h ⟨a, b⟩ hab
  simp only [bne_iff_ne, ne_eq] at hne
  exact hne hfst.symm

theorem startDiscovery_devices (s : ScannerState) :
    (startDiscovery s).1.discovered_devices = s.discovered_devices := by
  unfold startDiscovery
  by_cases h1 : s.is_scanning <;> by_cases h2 : s.discovery_thread <;>
    simp [h1, h2]

theorem stopDiscovery_devices (s : ScannerState) :
    (stopDiscovery s).discovered_devices = s.discovered_devices := by
  unfold stopDiscovery
  split <;> rfl

theorem pollStep_failing_connected (s : DeviceState) (r : PollResponse)
    (hf : isFailing r = true) (hc : s.is_connected = true) :
    pollStep s r = ({ s with is_connected := false }, [Event.stateChanged]) := by
  cases r with
  | exn => simp [pollStep, disconnectPhase, hc]
  | status code body =>
    have h200 : (code == 200) = false := by
      simp only [isFailing, bne_iff_ne, ne_eq] at hf
      simp [hf]
    simp [pollStep, h200, disconnectPhase, hc]

theorem pollStep_failing_disconnected (s : DeviceState) (r : PollResponse)
    (hf : isFailing r = true) (hc : s.is_connected = false) :
    pollStep s r = (s, []) := by
  cases r with
  | exn => simp [pollStep, disconnectPhase, hc]
  | status code body =>
    have h200 : (code == 200) = false := by
      simp only [isFailing, bne_iff_ne, ne_eq] at hf
      simp [hf]
    simp [pollStep, h200, disconnectPhase, hc]

theorem pollTrace_failing_disconnected (s : DeviceState)
    (rs : List PollResponse) (hc : s.is_connected = false)
    (hf : ∀ r ∈ rs, isFailing r = true) :
    pollTrace s rs = (s, []) := by
  induction rs with
  | nil => rfl
  | cons r rest ih =>
    have h1 := pollStep_failing_disconnected s r (hf r (by simp)) hc
    simp [pollTrace, h1, ih (fun r hr => hf r (by simp [hr]))]

/-! ## Claim theorems -/

/-- C1: a write request whose upload POST returns HTTP 200 and whose
start-print POST returns HTTP 200 sets the printing flag to true, sets
progress to 0, and emits exactly one progress-changed notification. -/
theorem write_success_sets_printing (s : DeviceState)
    (h : s.printing = false) :
    (requestWrite s true (.ok 200) (.code 200)).1.printing = true ∧
    (requestWrite s true (.ok 200) (.code 200)).1.progress = Json.num 0 ∧
    countProgress (requestWrite s true (.ok 200) (.code 200)).2.1 = 1 := by
  simp [requestWrite, h, uploadGCode, countProgress, isProgressChanged,
    List.filter]

theorem write_success_sets_printing_witness :
    (requestWrite initialDeviceState true (.ok 200) (.code 200)).1.printing
        = true ∧
    (requestWrite initialDeviceState true (.ok 200) (.code 200)).1.progress
        = Json.num 0 ∧
    countProgress
        (requestWrite initialDeviceState true (.ok 200) (.code 200)).2.1
      = 1 :=
  write_success_sets_printing initialDeviceState rfl

/-- C2: a write request while the printing flag is true performs zero
HTTP requests, shows only the "printer busy" message, and leaves the
connection state unchanged. -/
theorem write_while_printing_busy (s : DeviceState)
    (exporterAvailable : Bool) (attempt : UploadAttempt) (start : NetResult)
    (h : s.printing = true) :
    requestWrite s exporterAvailable attempt start =
      (s, [Event.message busyText], 0) := by
  simp [requestWrite, h]

theorem write_while_printing_busy_witness :
    requestWrite ⟨true, true, Json.num 40⟩ true (.ok 200) (.code 200) =
      (⟨true, true, Json.num 40⟩, [Event.message busyText], 0) :=
  write_while_printing_busy ⟨true, true, Json.num 40⟩ true (.ok 200)
    (.code 200) rfl

/-- C5: with the upload at HTTP 200 but the start-print command at a
non-200 status, the state is unchanged (so printing stays false and
progress stays put) and the error message shown is distinct from the
busy and upload-failure messages; every upload failure (non-200 upload
status, or an exception at any point of the attempt) likewise shows an
error notification and leaves the state unchanged. -/
theorem write_failure_paths (s : DeviceState) (h : s.printing = false)
    (c c2 : Nat) (hc : c ≠ 200) (hc2 : c2 ≠ 200) (e : String)
    (start : NetResult) :
    ((requestWrite s true (.ok 200) (.code c2)).1 = s ∧
     (requestWrite s true (.ok 200) (.code c2)).2.1 =
       [Event.message uploadingText, Event.message uploadSuccessText,
        Event.message startFailText] ∧
     startFailText ≠ busyText ∧ startFailText ≠ uploadFailText) ∧
    ((requestWrite s true (.ok c) start).1 = s ∧
     Event.message uploadFailText ∈ (requestWrite s true (.ok c) start).2.1) ∧
    ((requestWrite s true (.netExn e) start).1 = s ∧
     Event.message (uploadErrorText e) ∈
       (requestWrite s true (.netExn e) start).2.1) ∧
    ((requestWrite s true (.readExn e) start).1 = s ∧
     Event.message (uploadErrorText e) ∈
       (requestWrite s true (.readExn e) start).2.1) ∧
    ((requestWrite s true (.ok 200) (.exn e)).1 = s ∧
     Event.message (uploadErrorText e) ∈
       (requestWrite s true (.ok 200) (.exn e)).2.1) := by
  refine ⟨⟨?_, ?_, by decide, by decide⟩, ⟨?_, ?_⟩, ⟨?_, ?_⟩, ⟨?_, ?_⟩,
    ⟨?_, ?_⟩⟩ <;>
    simp [requestWrite, h, uploadGCode, hc, hc2]

/-- C10: a poll iteration that gets HTTP 200 with a body that does not
parse as JSON, starting disconnected, first connects (one state-changed
notification) and then the parse exception disconnects again (a second
state-changed notification), leaving the state as it was. -/
theorem poll_malformed_double_notification (s : DeviceState)
    (h : s.is_connected = false) :
    pollStep s (.status 200 .malformed) =
      (s, [Event.stateChanged, Event.stateChanged]) := by
  obtain ⟨c, p, pr⟩ := s
  cases h
  simp [pollStep, connectPhase, disconnectPhase]

theorem poll_malformed_double_notification_witness :
    pollStep initialDeviceState (.status 200 .malformed) =
      (initialDeviceState, [Event.stateChanged, Event.stateChanged]) :=
  poll_malformed_double_notification initialDeviceState rfl

/-- C4 as stated is false: on a successful poll (HTTP 200, parseable
JSON) whose `build.status` is the number `1` — neither "building" nor
"printing", so the claim demands the flag become false — calling
`.lower()` raises, the iteration falls into the exception handler, and
the printing flag stays true. -/
theorem poll_printing_flag_cex :
    (pollStep ⟨true, true, Json.num 0⟩ (.status 200 (.val (Json.obj
        [("build", Json.obj [("status", Json.num 1)])])))).1.printing
      = true := rfl

/-- C4 (amended): on a successful status poll whose payload lets the
status extraction `status_data.get("build", {}).get("status",
"").lower()` evaluate (in particular whenever `build` or `build.status`
is absent, which yields `""`), the printing flag becomes true iff the
lowercased status is "building" or "printing"; when the extraction
raises (non-dict payload or `build`, or a non-string status), the
iteration takes the exception path and the printing flag is unchanged. -/
theorem poll_printing_flag (s : DeviceState) (j : Json) :
    (∀ st, extractStatusLower j = .ok st →
       (pollStep s (.status 200 (.val j))).1.printing =
         (st == "building" || st == "printing")) ∧
    (extractStatusLower j = .error () →
       (pollStep s (.status 200 (.val j))).1.printing = s.printing) := by
  constructor
  · intro st hs
    rw [pollStep_200_val]
    exact handleStatusJson_printing_ok _ j st hs
  · intro hs
    rw [pollStep_200_val]
    show (handleStatusJson (connectPhase s).1 j).1.printing = s.printing
    rw [handleStatusJson_err _ j hs, disconnectPhase_printing,
      connectPhase_printing]

theorem poll_printing_flag_witness :
    (pollStep initialDeviceState (.status 200 (.val (Json.obj
        [("build", Json.obj [("status", Json.str "Building")])])))).1.printing
      = ("building" == "building" || "building" == "printing") ∧
    (pollStep ⟨true, true, Json.num 0⟩
        (.status 200 (.val (Json.num 3)))).1.printing
      = (⟨true, true, Json.num 0⟩ : DeviceState).printing :=
  ⟨(poll_printing_flag initialDeviceState _).1 "building" rfl,
   (poll_printing_flag ⟨true, true, Json.num 0⟩ _).2 rfl⟩

/-- C8 as stated is false: on a fresh connection (progress 0), a fully
successful write request stores progress 0 — equal to the previously
observed value — yet emits a progress-changed notification. -/
theorem progress_notification_cex :
    Json.beq
        (requestWrite initialDeviceState true (.ok 200) (.code 200)).1.progress
        initialDeviceState.progress = true ∧
    countProgress
        (requestWrite initialDeviceState true (.ok 200) (.code 200)).2.1
      = 1 :=
  ⟨rfl, rfl⟩

/-- C8 (amended): a status-poll iteration emits a progress-changed
notification iff the progress value it ends with differs from the
previous one; a fully successful write request, however, always stores
progress 0 and emits exactly one progress-changed notification, even
when progress was already 0. -/
theorem progress_notification_amended :
    (∀ (s : DeviceState) (r : PollResponse),
       countProgress (pollStep s r).2 =
         if Json.beq (pollStep s r).1.progress s.progress then 0 else 1) ∧
    (∀ (s : DeviceState), s.printing = false →
       (requestWrite s true (.ok 200) (.code 200)).1.progress = Json.num 0 ∧
       countProgress
           (requestWrite s true (.ok 200) (.code 200)).2.1 = 1) := by
  constructor
  · intro s r
    cases r with
    | exn =>
      show countProgress (disconnectPhase s).2 =
        if Json.beq (disconnectPhase s).1.progress s.progress then 0 else 1
      rw [disconnectPhase_countProgress, disconnectPhase_progress,
        Json.beq_refl]
      rfl
    | status code body =>
      by_cases hc : (code == 200) = true
      · cases body with
        | malformed =>
          simp only [pollStep, hc, if_true]
          rw [countProgress_append, connectPhase_countProgress,
            disconnectPhase_countProgress, disconnectPhase_progress,
            connectPhase_progress, Json.beq_refl]
          rfl
        | val j =>
          simp only [pollStep, hc, if_true]
          rw [countProgress_append, connectPhase_countProgress,
            handleStatusJson_progress_count, connectPhase_progress,
            Nat.zero_add]
      · rw [Bool.not_eq_true] at hc
        simp only [pollStep, hc, Bool.false_eq_true, if_false]
        rw [disconnectPhase_countProgress, disconnectPhase_progress,
          Json.beq_refl]
        rfl
  · intro s h
    simp [requestWrite, h, uploadGCode, countProgress, isProgressChanged,
      List.filter]

theorem progress_notification_amended_witness :
    (requestWrite initialDeviceState true (.ok 200) (.code 200)).1.progress
        = Json.num 0 ∧
    countProgress
        (requestWrite initialDeviceState true (.ok 200) (.code 200)).2.1
      = 1 :=
  progress_notification_amended.2 initialDeviceState rfl

/-- C9: a nonempty run of failing poll iterations (non-200 or exception)
starting connected emits exactly one state-changed notification and ends
disconnected; a run of failures starting disconnected emits none. -/
theorem failing_run_single_notification (s : DeviceState)
    (rs : List PollResponse) (hne : rs ≠ [])
    (hf : ∀ r ∈ rs, isFailing r = true) :
    (s.is_connected = true →
       countState (pollTrace s rs).2 = 1 ∧
       (pollTrace s rs).1.is_connected = false) ∧
    (s.is_connected = false → countState (pollTrace s rs).2 = 0) := by
  constructor
  · intro hc
    cases rs with
    | nil => exact absurd rfl hne
    | cons r rest =>
      have h1 := pollStep_failing_connected s r (hf r (by simp)) hc
      have h2 := pollTrace_failing_disconnected
        { s with is_connected := false } rest rfl
        (fun r hr => hf r (by simp [hr]))
      simp [pollTrace, h1, h2, countState, isStateChanged, List.filter]
  · intro hc
    simp [pollTrace_failing_disconnected s rs hc hf, countState]

theorem failing_run_single_notification_witness :
    (countState (pollTrace ⟨true, false, Json.num 0⟩
        [.exn, .status 500 .malformed, .exn]).2 = 1 ∧
     (pollTrace ⟨true, false, Json.num 0⟩
        [.exn, .status 500 .malformed, .exn]).1.is_connected = false) ∧
    countState (pollTrace ⟨false, false, Json.num 0⟩
        [.exn, .status 500 .malformed, .exn]).2 = 0 :=
  ⟨(failing_run_single_notification ⟨true, false, Json.num 0⟩
        [.exn, .status 500 .malformed, .exn] (by simp)
        (by intro r hr; simp at hr; rcases hr with rfl | rfl | rfl <;> rfl)).1
      rfl,
   (failing_run_single_notification ⟨false, false, Json.num 0⟩
        [.exn, .status 500 .malformed, .exn] (by simp)
        (by intro r hr; simp at hr; rcases hr with rfl | rfl | rfl <;> rfl)).2
      rfl⟩

theorem write_failure_paths_witness :
    ((requestWrite initialDeviceState true (.ok 200) (.code 404)).1 =
        initialDeviceState ∧
     (requestWrite initialDeviceState true (.ok 200) (.code 404)).2.1 =
       [Event.message uploadingText, Event.message uploadSuccessText,
        Event.message startFailText] ∧
     startFailText ≠ busyText ∧ startFailText ≠ uploadFailText) ∧
    ((requestWrite initialDeviceState true (.ok 500) (.code 200)).1 =
        initialDeviceState ∧
     Event.message uploadFailText ∈
       (requestWrite initialDeviceState true (.ok 500) (.code 200)).2.1) ∧
    ((requestWrite initialDeviceState true (.netExn "timed out")
        (.code 200)).1 = initialDeviceState ∧
     Event.message (uploadErrorText "timed out") ∈
       (requestWrite initialDeviceState true (.netExn "timed out")
         (.code 200)).2.1) ∧
    ((requestWrite initialDeviceState true (.readExn "timed out")
        (.code 200)).1 = initialDeviceState ∧
     Event.message (uploadErrorText "timed out") ∈
       (requestWrite initialDeviceState true (.readExn "timed out")
         (.code 200)).2.1) ∧
    ((requestWrite initialDeviceState true (.ok 200) (.exn "timed out")).1 =
        initialDeviceState ∧
     Event.message (uploadErrorText "timed out") ∈
       (requestWrite initialDeviceState true (.ok 200)
         (.exn "timed out")).2.1) :=
  write_failure_paths initialDeviceState rfl 500 404 (by decide) (by decide)
    "timed out" (.code 200)

/-- C3 as stated is false: the body `5` parses as JSON and is truthy,
yet the probe produces no record — `json_response.get("machine", {})`
raises `AttributeError` on the non-dict value, which the generic
exception handler turns into a no-match. -/
theorem probe_truthy_json_no_record :
    (Json.num 5).truthy = true ∧
    checkPrinter "192.168.1.5" (.ok (.val (Json.num 5))) = none :=
  ⟨rfl, rfl⟩

/-- C3 (amended): a probed address produces a device record iff the body
parses as JSON to a truthy JSON object whose `machine` member, when
present, is itself an object (`probeMatches`); on a match the record has
id `"dremel:" + ip`, base URL `http://<ip>/`, and display name
`machine.name` when present, else `"Dremel " + ip` (`specDisplayName`);
timeouts, connection errors and all other exceptions produce no
record. -/
theorem probe_record_amended (ip : String) :
    checkPrinter ip .urlError = none ∧
    checkPrinter ip .timeout = none ∧
    checkPrinter ip .otherError = none ∧
    checkPrinter ip (.ok .malformed) = none ∧
    (∀ j : Json, (checkPrinter ip (.ok (.val j))).isSome = probeMatches j) ∧
    (∀ j rec, checkPrinter ip (.ok (.val j)) = some rec →
       rec.id = "dremel:" ++ ip ∧ rec.url = "http://" ++ ip ++ "/" ∧
       rec.name = specDisplayName ip j ∧ rec.properties = j) := by
  refine ⟨rfl, rfl, rfl, rfl, ?_, ?_⟩
  · intro j
    cases j with
    | null => rfl
    | bool b => simp [checkPrinter, probeMatches, Json.truthy, Json.pyGet]
    | num n => simp [checkPrinter, probeMatches, Json.truthy, Json.pyGet]
    | str s => simp [checkPrinter, probeMatches, Json.truthy, Json.pyGet]
    | arr xs => simp [checkPrinter, probeMatches, Json.truthy, Json.pyGet]
    | obj fields =>
      cases hm : fields.lookup "machine" with
      | none =>
        simp only [checkPrinter, probeMatches, Json.truthy, Json.pyGet, hm]
        split <;> simp_all
      | some m =>
        cases m <;>
          simp only [checkPrinter, probeMatches, Json.truthy, Json.pyGet,
            hm] <;>
          split <;> simp_all
  · intro j rec h
    cases j with
    | null => simp [checkPrinter, Json.truthy] at h
    | bool b => simp [checkPrinter, Json.pyGet, Json.truthy, ite_self] at h
    | num n => simp [checkPrinter, Json.pyGet, Json.truthy, ite_self] at h
    | str s => simp [checkPrinter, Json.pyGet, Json.truthy, ite_self] at h
    | arr xs => simp [checkPrinter, Json.pyGet, Json.truthy, ite_self] at h
    | obj fields =>
      cases hm : fields.lookup "machine" with
      | none =>
        simp only [checkPrinter, Json.pyGet, hm] at h
        split at h
        · injection h with h
          subst h
          exact ⟨rfl, rfl, by simp [specDisplayName, hm], rfl⟩
        · exact absurd h (by simp)
      | some m =>
        cases m with
        | obj mfields =>
          simp only [checkPrinter, Json.pyGet, hm] at h
          split at h
          · injection h with h
            subst h
            exact ⟨rfl, rfl, by simp [specDisplayName, hm], rfl⟩
          · exact absurd h (by simp)
        | null => simp [checkPrinter, Json.pyGet, hm, ite_self] at h
        | bool b => simp [checkPrinter, Json.pyGet, hm, ite_self] at h
        | num n => simp [checkPrinter, Json.pyGet, hm, ite_self] at h
        | str s => simp [checkPrinter, Json.pyGet, hm, ite_self] at h
        | arr xs => simp [checkPrinter, Json.pyGet, hm, ite_self] at h

theorem probe_record_amended_witness :
    (⟨"dremel:" ++ "192.168.1.7",
      Json.str "D4",
      "http://" ++ "192.168.1.7" ++ "/",
      Json.obj [("machine", Json.obj [("name", Json.str "D4")])]⟩ :
        DeviceRecord).id = "dremel:" ++ "192.168.1.7" ∧
    (⟨"dremel:" ++ "192.168.1.7",
      Json.str "D4",
      "http://" ++ "192.168.1.7" ++ "/",
      Json.obj [("machine", Json.obj [("name", Json.str "D4")])]⟩ :
        DeviceRecord).url = "http://" ++ "192.168.1.7" ++ "/" ∧
    (⟨"dremel:" ++ "192.168.1.7",
      Json.str "D4",
      "http://" ++ "192.168.1.7" ++ "/",
      Json.obj [("machine", Json.obj [("name", Json.str "D4")])]⟩ :
        DeviceRecord).name =
      specDisplayName "192.168.1.7"
        (Json.obj [("machine", Json.obj [("name", Json.str "D4")])]) ∧
    (⟨"dremel:" ++ "192.168.1.7",
      Json.str "D4",
      "http://" ++ "192.168.1.7" ++ "/",
      Json.obj [("machine", Json.obj [("name", Json.str "D4")])]⟩ :
        DeviceRecord).properties =
      Json.obj [("machine", Json.obj [("name", Json.str "D4")])] :=
  (probe_record_amended "192.168.1.7").2.2.2.2.2
    (Json.obj [("machine", Json.obj [("name", Json.str "D4")])]) _ rfl

/-- C6 is right about the code's intent, but the code has a slip: after
a scan runs to natural completion (`_discoverDremelPrinters` clears
`_is_scanning` but leaves `_discovery_thread` set), a new
`startDiscovery` call sets `_is_scanning = True` yet skips thread
creation because `_discovery_thread is not None`, so no probes are
issued and the scanner is left wedged (scanning flag true, no worker).
This theorem evaluates the code at that failing input: the first call
spawns the worker, a call while scanning is a no-op, but the restart
after completion spawns nothing while still flipping the flag. -/
theorem startDiscovery_after_completion :
    (startDiscovery initialScannerState).2 = true ∧
    startDiscovery (startDiscovery initialScannerState).1 =
      ((startDiscovery initialScannerState).1, false) ∧
    (startDiscovery
        (scanComplete (startDiscovery initialScannerState).1)).2 = false ∧
    (startDiscovery
        (scanComplete (startDiscovery initialScannerState).1)).1.is_scanning
      = true ∧
    (startDiscovery
        (scanComplete
          (startDiscovery initialScannerState).1)).1.discovery_thread
      = true :=
  ⟨rfl, rfl, rfl, rfl, rfl⟩

/-- C7: in every reachable scanner state the discovered-device mapping
has no two records with the same key (hence at most one per IP), and a
probe success for a key already in the mapping changes nothing and emits
nothing. -/
theorem discovered_devices_unique (s : ScannerState) (h : Reachable s) :
    (s.discovered_devices.map Prod.fst).Nodup ∧
    ∀ ip name url props,
      (s.discovered_devices.lookup ("dremel:" ++ ip)).isSome = true →
      onDeviceFound s ip name url props = (s, []) := by
  constructor
  · induction h with
    | init => simp [initialScannerState]
    | start h ih => rw [startDiscovery_devices]; exact ih
    | stop h ih => rw [stopDiscovery_devices]; exact ih
    | complete h ih => exact ih
    | found ip name url props h ih =>
      rename_i t
      by_cases hk : (t.discovered_devices.lookup ("dremel:" ++ ip)).isSome
      · simp [onDeviceFound, hk]
        exact ih
      · rw [Option.not_isSome_iff_eq_none] at hk
        simp only [onDeviceFound, hk, Option.isSome_none, Bool.false_eq_true,
          if_false, List.map_cons, List.nodup_cons]
        exact ⟨lookup_none_not_mem _ _ hk, ih⟩
    | removed device_id h ih =>
      unfold removeDevice
      split
      · exact ih.sublist ((List.filter_sublist _).map Prod.fst)
      · exact ih
  · intro ip name url props hmem
    simp [onDeviceFound, hmem]

theorem discovered_devices_unique_witness :
    ((((onDeviceFound initialScannerState "192.168.1.7" (Json.str "D4")
          "http://192.168.1.7/" Json.null).1).discovered_devices.map
        Prod.fst).Nodup) ∧
    onDeviceFound
        (onDeviceFound initialScannerState "192.168.1.7" (Json.str "D4")
          "http://192.168.1.7/" Json.null).1
        "192.168.1.7" (Json.str "D4") "http://192.168.1.7/" Json.null =
      ((onDeviceFound initialScannerState "192.168.1.7" (Json.str "D4")
          "http://192.168.1.7/" Json.null).1, []) := by
  have h := discovered_devices_unique
    (onDeviceFound initialScannerState "192.168.1.7" (Json.str "D4")
      "http://192.168.1.7/" Json.null).1
    (Reachable.found "192.168.1.7" (Json.str "D4") "http://192.168.1.7/"
      Json.null Reachable.init)
  exact ⟨h.1, h.2 "192.168.1.7" (Json.str "D4") "http://192.168.1.7/"
    Json.null (by rfl)⟩

end Dremel
